import Mathlib

/-!
Verification of the change-listener core of VirtualDesktopAccessor
(`src/changelistener.rs`): a shallow embedding of the
`VirtualDesktopChangeListener` state, its registration handshake
(`register`), its teardown (`Drop`), its four handler-installation
methods, and the six notification-contract methods, together with
theorems settling the specified properties.
-/

/-- Modelled from the spec: the `HRESULT` wrapper lives in the crate's
`hresult.rs`, which is not part of the core under analysis.  Per the
spec's error taxonomy an `HRESULT` is a status code with a
success/failure dichotomy; we carry the raw signed code. -/
structure HRESULT where
  code : Int
deriving DecidableEq, Repr

/-- Modelled from the spec: a status code signals failure exactly when it
is negative (the standard convention assumed by `res.failed()`). -/
def HRESULT.failed (h : HRESULT) : Bool := h.code < 0

/-- `HRESULT::ok()`: the success status every sink method returns. -/
def HRESULT.ok : HRESULT := ⟨0⟩

/-- `HRESULT::from_i32`: wrap the raw code returned by `query_interface`. -/
def HRESULT.from_i32 (i : Int) : HRESULT := ⟨i⟩

/-- `DesktopID`: opaque identifier, forwarded untouched. -/
abbrev DesktopID := Nat

/-- `HWND`: opaque window handle, forwarded untouched. -/
abbrev HWND := Nat

/-- A callback is identified opaquely by a tag; dispatch records which
tag was invoked and with which arguments. -/
abbrev CallbackTag := Nat

/-- External `IVirtualDesktop` object: its only consumed accessor is
`get_id`, which writes the desktop's identifier into an out-parameter. -/
structure IVirtualDesktop where
  get_id : DesktopID
deriving DecidableEq, Repr

/-- External `IApplicationView` object: its only consumed accessor is
`get_thumbnail_window`. -/
structure IApplicationView where
  get_thumbnail_window : HWND
deriving DecidableEq, Repr

/-- External `IVirtualDesktopNotificationService`, observed through the
outcome of its `register` operation: the status it returns and the
cookie it writes through the out-parameter. -/
structure IVirtualDesktopNotificationService where
  registerHr : HRESULT
  registerCookie : Nat
deriving DecidableEq, Repr

/-- One invocation of an installed handler, recording the callback tag
and the arguments it received, in order. -/
inductive HandlerCall where
  | desktopCreated (cb : CallbackTag) (id : DesktopID)
  | desktopDestroyed (cb : CallbackTag) (id : DesktopID)
  | windowChange (cb : CallbackTag) (hwnd : HWND)
  | desktopChange (cb : CallbackTag) (oldId newId : DesktopID)
deriving DecidableEq, Repr

/-- The `VirtualDesktopChangeListener` state: the optional service
reference (`Cell<Option<ComRc<...>>>`), the registration cookie
(`Cell<u32>`), and the four handler slots (`RefCell<Option<Box<dyn Fn>>>`),
each holding at most one callback. -/
structure VirtualDesktopChangeListener where
  service : Option IVirtualDesktopNotificationService
  cookie : Nat
  onDesktopChange : Option CallbackTag
  onDesktopCreated : Option CallbackTag
  onDesktopDestroyed : Option CallbackTag
  onWindowChange : Option CallbackTag
deriving DecidableEq, Repr

namespace VirtualDesktopChangeListener

/-- `VirtualDesktopChangeListener::new`: allocate with empty service
slot, zero cookie and all four handler slots empty. -/
def new : VirtualDesktopChangeListener :=
  { service := none, cookie := 0, onDesktopChange := none,
    onDesktopCreated := none, onDesktopDestroyed := none,
    onWindowChange := none }

/-- `on_desktop_change`: replace the desktop-switch handler slot. -/
def on_desktop_change (l : VirtualDesktopChangeListener) (cb : CallbackTag) :
    VirtualDesktopChangeListener :=
  { l with onDesktopChange := some cb }

/-- `on_desktop_created`: replace the desktop-created handler slot. -/
def on_desktop_created (l : VirtualDesktopChangeListener) (cb : CallbackTag) :
    VirtualDesktopChangeListener :=
  { l with onDesktopCreated := some cb }

/-- `on_desktop_destroyed`: replace the desktop-destroyed handler slot. -/
def on_desktop_destroyed (l : VirtualDesktopChangeListener) (cb : CallbackTag) :
    VirtualDesktopChangeListener :=
  { l with onDesktopDestroyed := some cb }

/-- `on_window_change`: replace the window-change handler slot. -/
def on_window_change (l : VirtualDesktopChangeListener) (cb : CallbackTag) :
    VirtualDesktopChangeListener :=
  { l with onWindowChange := some cb }

/-- `virtual_desktop_created`: if a handler is installed, read the
desktop's id and invoke it; always return `HRESULT::ok()`. -/
def virtual_desktop_created (l : VirtualDesktopChangeListener)
    (desktop : IVirtualDesktop) :
    VirtualDesktopChangeListener × HRESULT × List HandlerCall :=
  match l.onDesktopCreated with
  | some cb => (l, HRESULT.ok, [.desktopCreated cb desktop.get_id])
  | none => (l, HRESULT.ok, [])

/-- `virtual_desktop_destroy_begin`: intentionally unobserved; returns
`HRESULT::ok()` without touching any handler or state. -/
def virtual_desktop_destroy_begin (l : VirtualDesktopChangeListener)
    (_destroyed_desktop _fallback_desktop : IVirtualDesktop) :
    VirtualDesktopChangeListener × HRESULT × List HandlerCall :=
  (l, HRESULT.ok, [])

/-- `virtual_desktop_destroy_failed`: intentionally unobserved; returns
`HRESULT::ok()` without touching any handler or state. -/
def virtual_desktop_destroy_failed (l : VirtualDesktopChangeListener)
    (_destroyed_desktop _fallback_desktop : IVirtualDesktop) :
    VirtualDesktopChangeListener × HRESULT × List HandlerCall :=
  (l, HRESULT.ok, [])

/-- `virtual_desktop_destroyed`: if a handler is installed, read the
destroyed desktop's id and invoke it; always return `HRESULT::ok()`. -/
def virtual_desktop_destroyed (l : VirtualDesktopChangeListener)
    (destroyed_desktop _fallback_desktop : IVirtualDesktop) :
    VirtualDesktopChangeListener × HRESULT × List HandlerCall :=
  match l.onDesktopDestroyed with
  | some cb => (l, HRESULT.ok, [.desktopDestroyed cb destroyed_desktop.get_id])
  | none => (l, HRESULT.ok, [])

/-- `view_virtual_desktop_changed`: if a handler is installed, read the
view's thumbnail window and invoke it; always return `HRESULT::ok()`. -/
def view_virtual_desktop_changed (l : VirtualDesktopChangeListener)
    (view : IApplicationView) :
    VirtualDesktopChangeListener × HRESULT × List HandlerCall :=
  match l.onWindowChange with
  | some cb => (l, HRESULT.ok, [.windowChange cb view.get_thumbnail_window])
  | none => (l, HRESULT.ok, [])

/-- `current_virtual_desktop_changed`: if a handler is installed, read
both desktop ids and invoke it with (old, new); always return
`HRESULT::ok()`. -/
def current_virtual_desktop_changed (l : VirtualDesktopChangeListener)
    (old_desktop new_desktop : IVirtualDesktop) :
    VirtualDesktopChangeListener × HRESULT × List HandlerCall :=
  match l.onDesktopChange with
  | some cb =>
    (l, HRESULT.ok,
      [.desktopChange cb old_desktop.get_id new_desktop.get_id])
  | none => (l, HRESULT.ok, [])

/-- `Drop::drop`: take the stored service reference; if one was present
and the cookie is nonzero, call the service's `unregister` with it.
Returns the post-teardown state and the list of unregister calls
(recorded by the token passed). -/
def drop (l : VirtualDesktopChangeListener) :
    VirtualDesktopChangeListener × List Nat :=
  match l.service with
  | some _s =>
    if l.cookie ≠ 0 then ({ l with service := none }, [l.cookie])
    else ({ l with service := none }, [])
  | none => (l, [])

/-- Outcome of the external `query_interface` call made inside
`register`: the raw status code it returned and whether the
out-parameter `ipv` was left null. -/
structure QueryInterfaceOutcome where
  hr : Int
  ipvIsNull : Bool
deriving DecidableEq, Repr

instance {α β : Type} [DecidableEq α] [DecidableEq β] :
    DecidableEq (Except α β) := fun x y =>
  match x, y with
  | .error a, .error b =>
    if h : a = b then .isTrue (by rw [h])
    else .isFalse (by intro hc; cases hc; exact h rfl)
  | .ok a, .ok b =>
    if h : a = b then .isTrue (by rw [h])
    else .isFalse (by intro hc; cases hc; exact h rfl)
  | .error _, .ok _ => .isFalse (by intro hc; cases hc)
  | .ok _, .error _ => .isFalse (by intro hc; cases hc)

/-- Outcome of `VirtualDesktopChangeListener::register`: the returned
`Result`, the final state of the listener that was constructed, and
whether the service's `register` operation was invoked. -/
structure RegisterOutcome where
  result : Except HRESULT VirtualDesktopChangeListener
  listener : VirtualDesktopChangeListener
  registerCalled : Bool
deriving DecidableEq, Repr

/-- `VirtualDesktopChangeListener::register`: construct a fresh
listener, query it for the notification interface; on query success
with a non-null pointer call `service.register`; if that fails return
`Err(res)` (the query-stage status), otherwise store the service and
cookie and return the listener; on query failure or null pointer return
`Err(res)` without calling the service. -/
def register (q : QueryInterfaceOutcome)
    (service : IVirtualDesktopNotificationService) : RegisterOutcome :=
  let listener := VirtualDesktopChangeListener.new
  let res := HRESULT.from_i32 q.hr
  if !res.failed && !q.ipvIsNull then
    let cookie := service.registerCookie
    let res2 := service.registerHr
    if res2.failed then
      { result := .error res, listener := listener, registerCalled := true }
    else
      { result := .ok { listener with service := some service, cookie := cookie },
        listener := { listener with service := some service, cookie := cookie },
        registerCalled := true }
  else
    { result := .error res, listener := listener, registerCalled := false }

/-- `teardownN n l`: invoke teardown `n` times in sequence, collecting
every unregister call made in total. -/
def teardownN : Nat → VirtualDesktopChangeListener →
    VirtualDesktopChangeListener × List Nat
  | 0, l => (l, [])
  | n + 1, l =>
    let p := l.drop
    let rest := teardownN n p.1
    (rest.1, p.2 ++ rest.2)

end VirtualDesktopChangeListener

namespace VirtualDesktopChangeListener

lemma drop_of_service_none (l : VirtualDesktopChangeListener)
    (h : l.service = none) : l.drop = (l, []) := by
  simp [drop, h]

lemma drop_fst_service_none (l : VirtualDesktopChangeListener) :
    (l.drop).1.service = none := by
  cases h : l.service with
  | none => simp [drop, h]
  | some s =>
    by_cases hc : l.cookie ≠ 0 <;> simp [drop, h, hc]

lemma drop_snd_length_le_one (l : VirtualDesktopChangeListener) :
    (l.drop).2.length ≤ 1 := by
  cases h : l.service with
  | none => simp [drop, h]
  | some s =>
    by_cases hc : l.cookie ≠ 0 <;> simp [drop, h, hc]

lemma teardownN_of_service_none (n : Nat) (l : VirtualDesktopChangeListener)
    (h : l.service = none) : teardownN n l = (l, []) := by
  induction n with
  | zero => rfl
  | succ n ih => simp [teardownN, drop_of_service_none l h, ih]

lemma register_error_listener (q : QueryInterfaceOutcome)
    (svc : IVirtualDesktopNotificationService) (err : HRESULT)
    (h : (register q svc).result = .error err) :
    (register q svc).listener = VirtualDesktopChangeListener.new := by
  by_cases h1 : (!(HRESULT.from_i32 q.hr).failed && !q.ipvIsNull) = true
  · by_cases h2 : svc.registerHr.failed = true
    · simp [register, h1, h2]
    · exfalso
      simp [register, h1, h2] at h
  · simp [register, h1]

end VirtualDesktopChangeListener

open VirtualDesktopChangeListener

/-- C1: if the interface query succeeds (non-failing status, non-null
pointer) but the service's register call fails, `register` returns the
query-stage status as the error, not the register-stage status. -/
theorem register_fail_surfaces_query_status (q : QueryInterfaceOutcome)
    (svc : IVirtualDesktopNotificationService)
    (hq : (HRESULT.from_i32 q.hr).failed = false)
    (hnull : q.ipvIsNull = false)
    (hreg : svc.registerHr.failed = true) :
    (register q svc).result = .error (HRESULT.from_i32 q.hr) ∧
      (svc.registerHr ≠ HRESULT.from_i32 q.hr →
        (register q svc).result ≠ .error svc.registerHr) := by
  constructor
  · simp [register, hq, hnull, hreg]
  · intro hne
    simp [register, hq, hnull, hreg]
    intro hc
    exact hne hc.symm

theorem register_fail_surfaces_query_status_witness :
    (register ⟨0, false⟩ ⟨⟨-1⟩, 5⟩).result = .error (HRESULT.from_i32 0) ∧
      (register ⟨0, false⟩ ⟨⟨-1⟩, 5⟩).result ≠
        .error (IVirtualDesktopNotificationService.registerHr ⟨⟨-1⟩, 5⟩) := by
  have h := register_fail_surfaces_query_status ⟨0, false⟩ ⟨⟨-1⟩, 5⟩
    (by decide) (by decide) (by decide)
  exact ⟨h.1, h.2 (by decide)⟩

/-- C2: if the interface-query step fails, `register` returns that
query failure code, never invokes the service's register operation, and
leaves the constructed listener in its fresh (unmutated) state. -/
theorem register_query_failure_aborts (q : QueryInterfaceOutcome)
    (svc : IVirtualDesktopNotificationService)
    (hq : (HRESULT.from_i32 q.hr).failed = true) :
    (register q svc).result = .error (HRESULT.from_i32 q.hr) ∧
      (register q svc).registerCalled = false ∧
      (register q svc).listener = VirtualDesktopChangeListener.new := by
  refine ⟨?_, ?_, ?_⟩ <;> simp [register, hq]

theorem register_query_failure_aborts_witness :
    (register ⟨-5, false⟩ ⟨⟨0⟩, 1⟩).result = .error (HRESULT.from_i32 (-5)) ∧
      (register ⟨-5, false⟩ ⟨⟨0⟩, 1⟩).registerCalled = false ∧
      (register ⟨-5, false⟩ ⟨⟨0⟩, 1⟩).listener = VirtualDesktopChangeListener.new :=
  register_query_failure_aborts ⟨-5, false⟩ ⟨⟨0⟩, 1⟩ (by decide)

/-- C3: teardown is idempotent: any number of teardowns makes at most
one unregister call in total; a handle with no stored service (in
particular one left by a failed registration) never triggers an
unregister call. -/
theorem teardown_idempotent (n : Nat) (l : VirtualDesktopChangeListener)
    (q : QueryInterfaceOutcome) (svc : IVirtualDesktopNotificationService)
    (err : HRESULT) :
    (teardownN n l).2.length ≤ 1 ∧
      (l.service = none → (teardownN n l).2 = []) ∧
      ((register q svc).result = .error err →
        (teardownN n (register q svc).listener).2 = []) := by
  refine ⟨?_, ?_, ?_⟩
  · cases n with
    | zero => simp [teardownN]
    | succ n =>
      have hsvc := drop_fst_service_none l
      simp [teardownN, teardownN_of_service_none n (l.drop).1 hsvc]
      exact drop_snd_length_le_one l
  · intro h
    simp [teardownN_of_service_none n l h]
  · intro h
    have hl := register_error_listener q svc err h
    rw [hl]
    simp [teardownN_of_service_none n VirtualDesktopChangeListener.new rfl]

theorem teardown_idempotent_witness :
    (teardownN 3 (register ⟨0, false⟩ ⟨⟨0⟩, 7⟩).listener).2.length ≤ 1 ∧
      (teardownN 3 (register ⟨-1, false⟩ ⟨⟨0⟩, 7⟩).listener).2 = [] :=
  ⟨(teardown_idempotent 3 (register ⟨0, false⟩ ⟨⟨0⟩, 7⟩).listener
      ⟨0, false⟩ ⟨⟨0⟩, 7⟩ ⟨0⟩).1,
   (teardown_idempotent 3 VirtualDesktopChangeListener.new
      ⟨-1, false⟩ ⟨⟨0⟩, 7⟩ ⟨-1⟩).2.2 (by decide)⟩

/-- C4: if the stored token is exactly 0, teardown makes no unregister
call on the service, even when a service reference is present. -/
theorem drop_zero_cookie_no_unregister (l : VirtualDesktopChangeListener)
    (h : l.cookie = 0) : (l.drop).2 = [] := by
  cases hs : l.service with
  | none => simp [VirtualDesktopChangeListener.drop, hs]
  | some s => simp [VirtualDesktopChangeListener.drop, hs, h]

theorem drop_zero_cookie_no_unregister_witness :
    (((register ⟨0, false⟩ ⟨⟨0⟩, 0⟩).listener).drop).2 = [] ∧
      ((register ⟨0, false⟩ ⟨⟨0⟩, 0⟩).listener).service.isSome = true :=
  ⟨drop_zero_cookie_no_unregister (register ⟨0, false⟩ ⟨⟨0⟩, 0⟩).listener
    (by decide), by decide⟩

/-- C5: every one of the six notification-contract methods returns the
success status, for every input and every handler configuration. -/
theorem sink_methods_always_ok (l : VirtualDesktopChangeListener)
    (d f : IVirtualDesktop) (v : IApplicationView) :
    (l.virtual_desktop_created d).2.1 = HRESULT.ok ∧
      (l.virtual_desktop_destroy_begin d f).2.1 = HRESULT.ok ∧
      (l.virtual_desktop_destroy_failed d f).2.1 = HRESULT.ok ∧
      (l.virtual_desktop_destroyed d f).2.1 = HRESULT.ok ∧
      (l.view_virtual_desktop_changed v).2.1 = HRESULT.ok ∧
      (l.current_virtual_desktop_changed d f).2.1 = HRESULT.ok := by
  refine ⟨?_, rfl, rfl, ?_, ?_, ?_⟩
  · cases h : l.onDesktopCreated <;> simp [virtual_desktop_created, h]
  · cases h : l.onDesktopDestroyed <;> simp [virtual_desktop_destroyed, h]
  · cases h : l.onWindowChange <;> simp [view_virtual_desktop_changed, h]
  · cases h : l.onDesktopChange <;> simp [current_virtual_desktop_changed, h]

/-- C6: destroy-begin and destroy-failed notifications invoke no
handler and leave the handle state unchanged, under every handler
configuration. -/
theorem destroy_begin_failed_noop (l : VirtualDesktopChangeListener)
    (d f : IVirtualDesktop) :
    l.virtual_desktop_destroy_begin d f = (l, HRESULT.ok, []) ∧
      l.virtual_desktop_destroy_failed d f = (l, HRESULT.ok, []) :=
  ⟨rfl, rfl⟩

/-- C7: for each of the four event-kind slots, any sequence of installs
ending in `cb` leaves exactly `cb` in the slot (last-write-wins, no
chaining, always succeeds), and a subsequent dispatch for that event
kind invokes exactly `cb`. -/
theorem install_last_write_wins (l : VirtualDesktopChangeListener)
    (cbs1 cbs2 cbs3 cbs4 : List CallbackTag) (cb : CallbackTag)
    (d1 d2 : IVirtualDesktop) (v : IApplicationView) :
    (((cbs1 ++ [cb]).foldl on_desktop_change l).onDesktopChange = some cb ∧
      (((cbs1 ++ [cb]).foldl on_desktop_change l).current_virtual_desktop_changed
          d1 d2).2.2 = [.desktopChange cb d1.get_id d2.get_id]) ∧
    (((cbs2 ++ [cb]).foldl on_desktop_created l).onDesktopCreated = some cb ∧
      (((cbs2 ++ [cb]).foldl on_desktop_created l).virtual_desktop_created
          d1).2.2 = [.desktopCreated cb d1.get_id]) ∧
    (((cbs3 ++ [cb]).foldl on_desktop_destroyed l).onDesktopDestroyed = some cb ∧
      (((cbs3 ++ [cb]).foldl on_desktop_destroyed l).virtual_desktop_destroyed
          d1 d2).2.2 = [.desktopDestroyed cb d1.get_id]) ∧
    (((cbs4 ++ [cb]).foldl on_window_change l).onWindowChange = some cb ∧
      (((cbs4 ++ [cb]).foldl on_window_change l).view_virtual_desktop_changed
          v).2.2 = [.windowChange cb v.get_thumbnail_window]) := by
  simp [List.foldl_append, on_desktop_change, on_desktop_created,
    on_desktop_destroyed, on_window_change, current_virtual_desktop_changed,
    virtual_desktop_created, virtual_desktop_destroyed,
    view_virtual_desktop_changed]

/-- C8 counterexample: after a successful registration with token 7
followed by teardown, the state has a nonzero token while the service
slot is empty, so the claimed nonzero-token-iff-occupied invariant is
false and the token was not restored to zero by teardown. -/
theorem handle_invariant_counterexample :
    ¬((((register ⟨0, false⟩ ⟨⟨0⟩, 7⟩).listener).drop).1.cookie ≠ 0 ↔
        (((register ⟨0, false⟩ ⟨⟨0⟩, 7⟩).listener).drop).1.service.isSome = true) ∧
      (((register ⟨0, false⟩ ⟨⟨0⟩, 7⟩).listener).drop).1.cookie = 7 ∧
      (((register ⟨0, false⟩ ⟨⟨0⟩, 7⟩).listener).drop).1.service = none := by
  decide

/-- C8 amended: the token-zero/slot-empty pairing holds for a fresh
handle; a successful registration with a nonzero returned cookie makes
the token nonzero and the slot occupied; and teardown always empties
the service slot but leaves the token field unchanged. -/
theorem handle_invariant_amended (q : QueryInterfaceOutcome)
    (svc : IVirtualDesktopNotificationService)
    (l : VirtualDesktopChangeListener) :
    (VirtualDesktopChangeListener.new.cookie = 0 ∧
      VirtualDesktopChangeListener.new.service = none) ∧
    ((HRESULT.from_i32 q.hr).failed = false → q.ipvIsNull = false →
      svc.registerHr.failed = false → svc.registerCookie ≠ 0 →
      ((register q svc).listener.cookie ≠ 0 ∧
        (register q svc).listener.service = some svc)) ∧
    ((l.drop).1.service = none ∧ (l.drop).1.cookie = l.cookie) := by
  refine ⟨⟨rfl, rfl⟩, ?_, drop_fst_service_none l, ?_⟩
  · intro hq hnull h2 hc
    constructor <;> simp [register, hq, hnull, h2, hc]
  · cases hs : l.service with
    | none => simp [VirtualDesktopChangeListener.drop, hs]
    | some s =>
      by_cases hc : l.cookie ≠ 0 <;>
        simp [VirtualDesktopChangeListener.drop, hs, hc]

theorem handle_invariant_amended_witness :
    ((register ⟨0, false⟩ ⟨⟨0⟩, 5⟩).listener.cookie ≠ 0 ∧
      (register ⟨0, false⟩ ⟨⟨0⟩, 5⟩).listener.service = some ⟨⟨0⟩, 5⟩) :=
  (handle_invariant_amended ⟨0, false⟩ ⟨⟨0⟩, 5⟩
    VirtualDesktopChangeListener.new).2.1
    (by decide) (by decide) (by decide) (by decide)

/-- C9: register succeeds with token 7; a desktop-switch handler is
installed; one current-desktop-changed(A, B) notification invokes the
handler exactly once with (A, B) in that order; then teardown calls
unregister exactly once with token 7. -/
theorem scenario_register7_switch_teardown (A B : DesktopID)
    (cb : CallbackTag) :
    (register ⟨0, false⟩ ⟨⟨0⟩, 7⟩).result =
        .ok (register ⟨0, false⟩ ⟨⟨0⟩, 7⟩).listener ∧
      (register ⟨0, false⟩ ⟨⟨0⟩, 7⟩).listener.cookie = 7 ∧
      (((register ⟨0, false⟩ ⟨⟨0⟩, 7⟩).listener.on_desktop_change
            cb).current_virtual_desktop_changed ⟨A⟩ ⟨B⟩).2.2 =
        [.desktopChange cb A B] ∧
      (((register ⟨0, false⟩ ⟨⟨0⟩, 7⟩).listener.on_desktop_change
            cb).current_virtual_desktop_changed ⟨A⟩ ⟨B⟩).2.1 = HRESULT.ok ∧
      ((((register ⟨0, false⟩ ⟨⟨0⟩, 7⟩).listener.on_desktop_change
            cb).current_virtual_desktop_changed ⟨A⟩ ⟨B⟩).1.drop).2 = [7] := by
  refine ⟨rfl, rfl, ?_, ?_, ?_⟩ <;>
    simp [register, on_desktop_change, current_virtual_desktop_changed,
      VirtualDesktopChangeListener.drop, VirtualDesktopChangeListener.new,
      HRESULT.from_i32, HRESULT.failed]

/-- C10: if the interface query reports a success status but yields a
null pointer, `register` returns an error carrying that success status
(a non-failure code), and the service's register operation is never
invoked. -/
theorem register_null_pointer_success_code (q : QueryInterfaceOutcome)
    (svc : IVirtualDesktopNotificationService)
    (hq : (HRESULT.from_i32 q.hr).failed = false)
    (hnull : q.ipvIsNull = true) :
    (register q svc).result = .error (HRESULT.from_i32 q.hr) ∧
      (register q svc).registerCalled = false ∧
      (HRESULT.from_i32 q.hr).failed = false := by
  refine ⟨?_, ?_, hq⟩ <;> simp [register, hnull]

theorem register_null_pointer_success_code_witness :
    (register ⟨0, true⟩ ⟨⟨0⟩, 9⟩).result = .error (HRESULT.from_i32 0) ∧
      (register ⟨0, true⟩ ⟨⟨0⟩, 9⟩).registerCalled = false ∧
      (HRESULT.from_i32 0).failed = false :=
  register_null_pointer_success_code ⟨0, true⟩ ⟨⟨0⟩, 9⟩ (by decide) (by decide)

